import Mathlib

/-!
# Verification of `lua/src/lib_init.c` (standard-library installer)

Shallow embedding of the module registry (`lj_lib_load`, `lj_lib_preload`)
and the installer `luaL_openlibs` from `lib_init.c`, together with a small
operational model of the Lua C-API operations the installer performs
(`lua_pushcfunction`, `lua_pushstring`, `lua_call`, `luaL_findtable`,
`lua_setfield`, `lua_pop`).  Those API operations live outside this file's
source (`lapi.c` / `lauxlib.c`); they are modelled from the spec's
description of their stack and registry effects.
-/

/-- The C entry-point functions referenced by the registry
(`luaopen_base`, `luaopen_package`, …, `luaopen_ffi`).  Their bodies are
external collaborators; here they are opaque, pairwise-distinct
identifiers. -/
inductive EntryPoint where
  | luaopen_base
  | luaopen_package
  | luaopen_table
  | luaopen_io
  | luaopen_os
  | luaopen_string
  | luaopen_math
  | luaopen_debug
  | luaopen_bit
  | luaopen_jit
  | luaopen_ffi
  deriving DecidableEq, Repr

/-- Modelled from the spec: module name constant from `lualib.h`
(header not under `src/`; the spec names the `package` module). -/
def LUA_LOADLIBNAME : String := "package"

/-- Modelled from the spec: module name constant from `lualib.h`. -/
def LUA_TABLIBNAME : String := "table"

/-- Modelled from the spec: module name constant from `lualib.h`. -/
def LUA_IOLIBNAME : String := "io"

/-- Modelled from the spec: module name constant from `lualib.h`. -/
def LUA_OSLIBNAME : String := "os"

/-- Modelled from the spec: module name constant from `lualib.h`. -/
def LUA_STRLIBNAME : String := "string"

/-- Modelled from the spec: module name constant from `lualib.h`. -/
def LUA_MATHLIBNAME : String := "math"

/-- Modelled from the spec: module name constant from `lualib.h`. -/
def LUA_DBLIBNAME : String := "debug"

/-- Modelled from the spec: module name constant from `lualib.h`. -/
def LUA_BITLIBNAME : String := "bit"

/-- Modelled from the spec: module name constant from `lualib.h`. -/
def LUA_JITLIBNAME : String := "jit"

/-- Modelled from the spec: module name constant from `lualib.h`. -/
def LUA_FFILIBNAME : String := "ffi"

/-- The compile-time configuration of `lib_init.c`: one `WB_DISABLE_LIB_*`
preprocessor switch per eager module, plus the `LJ_HASFFI` platform
capability flag (from `lj_arch.h`) gating the lazy `ffi` module.  A `true`
disable switch means the corresponding `#ifndef` block is compiled out. -/
structure BuildConfig where
  WB_DISABLE_LIB_BASE : Bool
  WB_DISABLE_LIB_PACKAGE : Bool
  WB_DISABLE_LIB_TABLE : Bool
  WB_DISABLE_LIB_IO : Bool
  WB_DISABLE_LIB_OS : Bool
  WB_DISABLE_LIB_STRING : Bool
  WB_DISABLE_LIB_MATH : Bool
  WB_DISABLE_LIB_DEBUG : Bool
  WB_DISABLE_LIB_BIT : Bool
  WB_DISABLE_LIB_JIT : Bool
  LJ_HASFFI : Bool
  deriving DecidableEq, Repr

/-- One row of a `luaL_Reg` array: `{ const char *name; lua_CFunction func }`.
`none` models a NULL pointer; the sentinel row is `⟨none, none⟩`. -/
structure luaL_Reg where
  name : Option String
  func : Option EntryPoint
  deriving DecidableEq, Repr

/-- The `lj_lib_load` array of `lib_init.c`: one row per eager module, each
row present exactly when its `WB_DISABLE_LIB_*` switch is not set, followed
by the `{ NULL, NULL }` sentinel. -/
def lj_lib_load (cfg : BuildConfig) : List luaL_Reg :=
  (if cfg.WB_DISABLE_LIB_BASE then [] else [⟨some "", some .luaopen_base⟩]) ++
  (if cfg.WB_DISABLE_LIB_PACKAGE then [] else [⟨some LUA_LOADLIBNAME, some .luaopen_package⟩]) ++
  (if cfg.WB_DISABLE_LIB_TABLE then [] else [⟨some LUA_TABLIBNAME, some .luaopen_table⟩]) ++
  (if cfg.WB_DISABLE_LIB_IO then [] else [⟨some LUA_IOLIBNAME, some .luaopen_io⟩]) ++
  (if cfg.WB_DISABLE_LIB_OS then [] else [⟨some LUA_OSLIBNAME, some .luaopen_os⟩]) ++
  (if cfg.WB_DISABLE_LIB_STRING then [] else [⟨some LUA_STRLIBNAME, some .luaopen_string⟩]) ++
  (if cfg.WB_DISABLE_LIB_MATH then [] else [⟨some LUA_MATHLIBNAME, some .luaopen_math⟩]) ++
  (if cfg.WB_DISABLE_LIB_DEBUG then [] else [⟨some LUA_DBLIBNAME, some .luaopen_debug⟩]) ++
  (if cfg.WB_DISABLE_LIB_BIT then [] else [⟨some LUA_BITLIBNAME, some .luaopen_bit⟩]) ++
  (if cfg.WB_DISABLE_LIB_JIT then [] else [⟨some LUA_JITLIBNAME, some .luaopen_jit⟩]) ++
  [⟨none, none⟩]

/-- The `lj_lib_preload` array of `lib_init.c`: the `ffi` row exactly when
`LJ_HASFFI` holds, followed by the `{ NULL, NULL }` sentinel. -/
def lj_lib_preload (cfg : BuildConfig) : List luaL_Reg :=
  (if cfg.LJ_HASFFI then [⟨some LUA_FFILIBNAME, some .luaopen_ffi⟩] else []) ++
  [⟨none, none⟩]

/-- The rows a `for (lib = arr; lib->func; lib++)` loop visits: the prefix of
the array up to (excluding) the first row with a NULL `func` pointer, each row
paired with its name (the C code never has a non-sentinel NULL name; `getD`
supplies `""` for totality). -/
def activeRegs : List luaL_Reg → List (String × EntryPoint)
  | [] => []
  | r :: rs =>
    match r.func with
    | none => []
    | some f => (r.name.getD "", f) :: activeRegs rs

/-- The EagerModuleSet of the spec: the modules `luaL_openlibs` iterates over
in its first loop. -/
def eagerModuleSet (cfg : BuildConfig) : List (String × EntryPoint) :=
  activeRegs (lj_lib_load cfg)

/-- The LazyModuleSet of the spec: the modules `luaL_openlibs` iterates over
in its preload-registration loop. -/
def lazyModuleSet (cfg : BuildConfig) : List (String × EntryPoint) :=
  activeRegs (lj_lib_preload cfg)

/-- Names of the eager modules. -/
def eagerNames (cfg : BuildConfig) : List String :=
  (eagerModuleSet cfg).map Prod.fst

/-- Names of the lazy modules. -/
def lazyNames (cfg : BuildConfig) : List String :=
  (lazyModuleSet cfg).map Prod.fst

/-- Values on the Lua evaluation stack, restricted to the shapes
`luaL_openlibs` creates: pushed C functions, pushed strings, and the
reference to the `_PRELOAD` registry table produced by `luaL_findtable`. -/
inductive LuaValue where
  | cfunction : EntryPoint → LuaValue
  | str : String → LuaValue
  | preloadRef : LuaValue
  deriving DecidableEq, Repr

/-- A record of one `lua_call`: the invoked C function, the argument values
passed to it, and the number of return values the caller consumes. -/
structure CallEvent where
  func : EntryPoint
  args : List LuaValue
  nresults : Nat
  deriving DecidableEq, Repr

/-- The observable interpreter state (`lua_State`) for this subsystem: the
evaluation stack, the `_PRELOAD` registry entry (whether it exists, the size
hint it was created with, and its contents), the trace of entry-point
invocations performed so far, and the set of global names materialized by
those invocations. -/
structure LuaState where
  stack : List LuaValue
  preloadExists : Bool
  preloadSizeHint : Option Nat
  preload : List (String × EntryPoint)
  invoked : List CallEvent
  globals : List String
  deriving DecidableEq, Repr

/-- A freshly created interpreter state: empty stack, no `_PRELOAD` entry,
nothing invoked, no globals. -/
def freshState : LuaState :=
  { stack := [], preloadExists := false, preloadSizeHint := none,
    preload := [], invoked := [], globals := [] }

/-- Model of `lua_pushcfunction(L, f)`: push a C function onto the stack. -/
def lua_pushcfunction (f : EntryPoint) (s : LuaState) : LuaState :=
  { s with stack := LuaValue.cfunction f :: s.stack }

/-- Model of `lua_pushstring(L, str)`: push a string onto the stack. -/
def lua_pushstring (str : String) (s : LuaState) : LuaState :=
  { s with stack := LuaValue.str str :: s.stack }

/-- Modelled from the spec (per-module entry-point contract, §6): invoking a
module entry point with a name argument installs that module's bindings,
making the passed name resolvable in the global namespace (the base module,
passed the empty name, installs the unnamespaced base bindings). -/
def installedGlobals (args : List LuaValue) : List String :=
  args.filterMap fun v =>
    match v with
    | LuaValue.str n => some n
    | _ => none

/-- Modelled from the spec: `lua_call(L, nargs, nresults)` (from `lapi.c`,
not under `src/`).  It consumes `nargs` argument values and, below them, the
function to invoke; the invocation runs synchronously in the same execution
context.  On success the invocation is recorded and the entry point's global
side effects applied; all of its return values are discarded (`lib_init.c`
only ever consumes `nresults = 0`).  If the invoked entry point fails — the
failure oracle `fails` says which entry points fail — the error unwinds
immediately to the caller with the call frame removed and no further effect. -/
def lua_call (fails : EntryPoint → Bool) (nargs nresults : Nat) (s : LuaState) :
    Except LuaState LuaState :=
  let args := s.stack.take nargs
  match s.stack.drop nargs with
  | LuaValue.cfunction f :: rest =>
    if fails f then
      Except.error { s with stack := rest }
    else
      Except.ok { s with
        stack := rest
        invoked := s.invoked ++ [⟨f, args, nresults⟩]
        globals := s.globals ++ installedGlobals args }
  | _ => Except.error { s with stack := s.stack.drop (nargs + 1) }

/-- Modelled from the spec: `luaL_findtable(L, LUA_REGISTRYINDEX, "_PRELOAD",
szhint)` (from `lauxlib.c`, not under `src/`): locate the `_PRELOAD` registry
entry or create it as a fresh table sized with the hint `szhint`, and push a
reference to it onto the stack. -/
def luaL_findtable_preload (szhint : Nat) (s : LuaState) : LuaState :=
  if s.preloadExists then
    { s with stack := LuaValue.preloadRef :: s.stack }
  else
    { s with
      stack := LuaValue.preloadRef :: s.stack
      preloadExists := true
      preloadSizeHint := some szhint
      preload := [] }

/-- Lua table assignment `t[name] = f`: replace the entry for `name` if
present, otherwise append it. -/
def setTableEntry (t : List (String × EntryPoint)) (name : String)
    (f : EntryPoint) : List (String × EntryPoint) :=
  if t.any fun p => p.1 = name then
    t.map fun p => if p.1 = name then (name, f) else p
  else
    t ++ [(name, f)]

/-- Modelled from the spec: `lua_setfield(L, -2, name)` as used by
`lib_init.c` (from `lapi.c`, not under `src/`): pop the value on top of the
stack and store it under key `name` in the table referenced at index `-2`
(in this file always the `_PRELOAD` table). -/
def lua_setfield_m2 (name : String) (s : LuaState) : LuaState :=
  match s.stack with
  | LuaValue.cfunction f :: LuaValue.preloadRef :: rest =>
    { s with
      stack := LuaValue.preloadRef :: rest
      preload := setTableEntry s.preload name f }
  | _ :: rest => { s with stack := rest }
  | [] => s

/-- Model of `lua_pop(L, n)`: drop the top `n` stack values. -/
def lua_pop (n : Nat) (s : LuaState) : LuaState :=
  { s with stack := s.stack.drop n }

/-- The first loop of `luaL_openlibs`: for each registry row,
`lua_pushcfunction(L, lib->func); lua_pushstring(L, lib->name);
lua_call(L, 1, 0);`, stopping with the propagated error if a call fails. -/
def openEagerLoop (fails : EntryPoint → Bool) :
    List (String × EntryPoint) → LuaState → Except LuaState LuaState
  | [], s => Except.ok s
  | (name, f) :: rest, s =>
    match lua_call fails 1 0 (lua_pushstring name (lua_pushcfunction f s)) with
    | Except.error e => Except.error e
    | Except.ok s1 => openEagerLoop fails rest s1

/-- The second loop of `luaL_openlibs`: for each preload registry row,
`lua_pushcfunction(L, lib->func); lua_setfield(L, -2, lib->name);`. -/
def preloadLoop : List (String × EntryPoint) → LuaState → LuaState
  | [], s => s
  | (name, f) :: rest, s =>
    preloadLoop rest (lua_setfield_m2 name (lua_pushcfunction f s))

/-- The installer `luaL_openlibs` from `lib_init.c`: run the eager loop over `lj_lib_load`;
then `luaL_findtable` the `_PRELOAD` registry entry with size hint
`sizeof(lj_lib_preload)/sizeof(lj_lib_preload[0]) - 1` (the array length
minus the sentinel); run the preload loop over `lj_lib_preload`; finally
`lua_pop(L, 1)` the `_PRELOAD` reference.  An error in an eager call
propagates immediately. -/
def luaL_openlibs (cfg : BuildConfig) (fails : EntryPoint → Bool)
    (s : LuaState) : Except LuaState LuaState :=
  match openEagerLoop fails (activeRegs (lj_lib_load cfg)) s with
  | Except.error e => Except.error e
  | Except.ok s1 =>
    let s2 := luaL_findtable_preload ((lj_lib_preload cfg).length - 1) s1
    let s3 := preloadLoop (activeRegs (lj_lib_preload cfg)) s2
    Except.ok (lua_pop 1 s3)

/-- The failure oracle for a run in which every entry point succeeds. -/
def noFail : EntryPoint → Bool := fun _ => false

/-- The call event an eager registry row produces: its entry point, invoked
with exactly the one string argument `lua_pushstring` pushed, with zero
consumed return values. -/
def mkEagerEvent (p : String × EntryPoint) : CallEvent :=
  ⟨p.2, [LuaValue.str p.1], 0⟩

/-- The build configuration with every module compiled in. -/
def allEnabled : BuildConfig :=
  ⟨false, false, false, false, false, false, false, false, false, false, true⟩

/-- The build configuration with every eager module compiled out and the FFI
capability present, so the lazy set is nonempty but the eager set is empty. -/
def onlyFfi : BuildConfig :=
  ⟨true, true, true, true, true, true, true, true, true, true, true⟩

/-- The eager registry order with every switch off: base first, then
package, table, io, os, string, math, debug, bit, jit. -/
def fullEagerOrder : List (String × EntryPoint) :=
  [("", .luaopen_base), (LUA_LOADLIBNAME, .luaopen_package),
   (LUA_TABLIBNAME, .luaopen_table), (LUA_IOLIBNAME, .luaopen_io),
   (LUA_OSLIBNAME, .luaopen_os), (LUA_STRLIBNAME, .luaopen_string),
   (LUA_MATHLIBNAME, .luaopen_math), (LUA_DBLIBNAME, .luaopen_debug),
   (LUA_BITLIBNAME, .luaopen_bit), (LUA_JITLIBNAME, .luaopen_jit)]

/-- The modules of `lib_init.c`, one identifier per registry row that a
build switch or capability flag can remove. -/
inductive LibId where
  | baseLib
  | packageLib
  | tableLib
  | ioLib
  | osLib
  | stringLib
  | mathLib
  | debugLib
  | bitLib
  | jitLib
  | ffiLib
  deriving DecidableEq, Repr

/-- Whether a module is compiled out of the registry under `cfg`: for the
eager modules this is the `WB_DISABLE_LIB_*` switch, for `ffi` it is the
absence of the `LJ_HASFFI` platform capability. -/
def disabledIn (m : LibId) (cfg : BuildConfig) : Bool :=
  match m with
  | .baseLib => cfg.WB_DISABLE_LIB_BASE
  | .packageLib => cfg.WB_DISABLE_LIB_PACKAGE
  | .tableLib => cfg.WB_DISABLE_LIB_TABLE
  | .ioLib => cfg.WB_DISABLE_LIB_IO
  | .osLib => cfg.WB_DISABLE_LIB_OS
  | .stringLib => cfg.WB_DISABLE_LIB_STRING
  | .mathLib => cfg.WB_DISABLE_LIB_MATH
  | .debugLib => cfg.WB_DISABLE_LIB_DEBUG
  | .bitLib => cfg.WB_DISABLE_LIB_BIT
  | .jitLib => cfg.WB_DISABLE_LIB_JIT
  | .ffiLib => !cfg.LJ_HASFFI

/-- The registry name of each module (the base module's name is `""`). -/
def libName : LibId → String
  | .baseLib => ""
  | .packageLib => LUA_LOADLIBNAME
  | .tableLib => LUA_TABLIBNAME
  | .ioLib => LUA_IOLIBNAME
  | .osLib => LUA_OSLIBNAME
  | .stringLib => LUA_STRLIBNAME
  | .mathLib => LUA_MATHLIBNAME
  | .debugLib => LUA_DBLIBNAME
  | .bitLib => LUA_BITLIBNAME
  | .jitLib => LUA_JITLIBNAME
  | .ffiLib => LUA_FFILIBNAME

/-- A failure oracle under which exactly the `table` module's entry point
fails. -/
def failTable : EntryPoint → Bool :=
  fun g => decide (g = EntryPoint.luaopen_table)

/-- The state a no-failure installer run on `onlyFfi` from `freshState`
produces. -/
def afterOnlyFfi : LuaState :=
  { stack := [], preloadExists := true, preloadSizeHint := some 1,
    preload := [(LUA_FFILIBNAME, .luaopen_ffi)], invoked := [], globals := [] }

theorem activeRegs_if_append (b : Bool) (n : String) (f : EntryPoint)
    (rest : List luaL_Reg) :
    activeRegs ((if b then [] else [⟨some n, some f⟩]) ++ rest) =
      (if b then [] else [(n, f)]) ++ activeRegs rest := by
  cases b <;> simp [activeRegs]

theorem eagerModuleSet_eq (cfg : BuildConfig) :
    eagerModuleSet cfg =
      (if cfg.WB_DISABLE_LIB_BASE then [] else [("", .luaopen_base)]) ++
      ((if cfg.WB_DISABLE_LIB_PACKAGE then [] else [(LUA_LOADLIBNAME, .luaopen_package)]) ++
      ((if cfg.WB_DISABLE_LIB_TABLE then [] else [(LUA_TABLIBNAME, .luaopen_table)]) ++
      ((if cfg.WB_DISABLE_LIB_IO then [] else [(LUA_IOLIBNAME, .luaopen_io)]) ++
      ((if cfg.WB_DISABLE_LIB_OS then [] else [(LUA_OSLIBNAME, .luaopen_os)]) ++
      ((if cfg.WB_DISABLE_LIB_STRING then [] else [(LUA_STRLIBNAME, .luaopen_string)]) ++
      ((if cfg.WB_DISABLE_LIB_MATH then [] else [(LUA_MATHLIBNAME, .luaopen_math)]) ++
      ((if cfg.WB_DISABLE_LIB_DEBUG then [] else [(LUA_DBLIBNAME, .luaopen_debug)]) ++
      ((if cfg.WB_DISABLE_LIB_BIT then [] else [(LUA_BITLIBNAME, .luaopen_bit)]) ++
      (if cfg.WB_DISABLE_LIB_JIT then [] else [(LUA_JITLIBNAME, .luaopen_jit)]))))))))) := by
  unfold eagerModuleSet lj_lib_load
  simp only [List.append_assoc]
  repeat rw [activeRegs_if_append]
  simp [activeRegs]

theorem lazyModuleSet_eq (cfg : BuildConfig) :
    lazyModuleSet cfg =
      if cfg.LJ_HASFFI then [(LUA_FFILIBNAME, .luaopen_ffi)] else [] := by
  unfold lazyModuleSet lj_lib_preload
  cases cfg.LJ_HASFFI <;> simp [activeRegs]

theorem cond_sublist {α : Type} (b : Bool) (x : α) :
    List.Sublist (if b then [] else [x]) [x] := by
  cases b <;> simp

theorem sublist_aux {α : Type} (b : Bool) (x : α) (l₁ l₂ : List α)
    (h : List.Sublist l₁ l₂) :
    List.Sublist ((if b then [] else [x]) ++ l₁) (x :: l₂) := by
  cases b
  · simpa using h.cons₂ x
  · simpa using h.cons x

theorem eagerModuleSet_sublist (cfg : BuildConfig) :
    List.Sublist (eagerModuleSet cfg) fullEagerOrder := by
  rw [eagerModuleSet_eq]
  unfold fullEagerOrder
  exact sublist_aux _ _ _ _ (sublist_aux _ _ _ _ (sublist_aux _ _ _ _
    (sublist_aux _ _ _ _ (sublist_aux _ _ _ _ (sublist_aux _ _ _ _
    (sublist_aux _ _ _ _ (sublist_aux _ _ _ _ (sublist_aux _ _ _ _
    (cond_sublist _ _)))))))))

theorem mem_cond {α : Type} (x : α) (b : Bool) (y : α) :
    x ∈ (if b then ([] : List α) else [y]) ↔ b = false ∧ x = y := by
  cases b <;> simp

theorem map_fst_cond (b : Bool) (p : String × EntryPoint) :
    (if b then ([] : List (String × EntryPoint)) else [p]).map Prod.fst =
      (if b then [] else [p.1]) := by
  cases b <;> simp

theorem mem_eagerModuleSet (cfg : BuildConfig) (p : String × EntryPoint) :
    p ∈ eagerModuleSet cfg ↔
      (cfg.WB_DISABLE_LIB_BASE = false ∧ p = ("", .luaopen_base)) ∨
      (cfg.WB_DISABLE_LIB_PACKAGE = false ∧ p = (LUA_LOADLIBNAME, .luaopen_package)) ∨
      (cfg.WB_DISABLE_LIB_TABLE = false ∧ p = (LUA_TABLIBNAME, .luaopen_table)) ∨
      ( cfg.WB_DISABLE_LIB_IO = false ∧ p = (LUA_IOLIBNAME, .luaopen_io)) ∨
      (cfg.WB_DISABLE_LIB_OS = false ∧ p = (LUA_OSLIBNAME, .luaopen_os)) ∨
      (cfg.WB_DISABLE_LIB_STRING = false ∧ p = (LUA_STRLIBNAME, .luaopen_string)) ∨
      (cfg.WB_DISABLE_LIB_MATH = false ∧ p = (LUA_MATHLIBNAME, .luaopen_math)) ∨
      (cfg.WB_DISABLE_LIB_DEBUG = false ∧ p = (LUA_DBLIBNAME, .luaopen_debug)) ∨
      (cfg.WB_DISABLE_LIB_BIT = false ∧ p = (LUA_BITLIBNAME, .luaopen_bit)) ∨
      (cfg.WB_DISABLE_LIB_JIT = false ∧ p = (LUA_JITLIBNAME, .luaopen_jit)) := by
  rw [eagerModuleSet_eq]
  simp [mem_cond]

theorem openEagerLoop_noFail (l : List (String × EntryPoint)) (s : LuaState) :
    openEagerLoop noFail l s =
      Except.ok { s with
        invoked := s.invoked ++ l.map mkEagerEvent
        globals := s.globals ++ l.map Prod.fst } := by
  induction l generalizing s with
  | nil => simp [openEagerLoop]
  | cons p rest ih =>
    obtain ⟨n, f⟩ := p
    simp [openEagerLoop, lua_call, lua_pushstring, lua_pushcfunction, noFail,
      installedGlobals, ih, mkEagerEvent]

theorem openEagerLoop_ok_prefix (fails : EntryPoint → Bool)
    (l₁ l₂ : List (String × EntryPoint)) (s : LuaState)
    (h : ∀ p ∈ l₁, fails p.2 = false) :
    openEagerLoop fails (l₁ ++ l₂) s =
      openEagerLoop fails l₂ { s with
        invoked := s.invoked ++ l₁.map mkEagerEvent
        globals := s.globals ++ l₁.map Prod.fst } := by
  induction l₁ generalizing s with
  | nil => simp
  | cons p rest ih =>
    obtain ⟨n, f⟩ := p
    have hf : fails f = false := h (n, f) (by simp)
    rw [List.cons_append]
    rw [show openEagerLoop fails ((n, f) :: (rest ++ l₂)) s =
        openEagerLoop fails (rest ++ l₂)
          { s with invoked := s.invoked ++ [⟨f, [LuaValue.str n], 0⟩],
                   globals := s.globals ++ [n] } from by
      simp [openEagerLoop, lua_call, lua_pushstring, lua_pushcfunction, hf,
        installedGlobals]]
    rw [ih _ fun p hp => h p (List.mem_cons_of_mem _ hp)]
    simp [mkEagerEvent]

theorem openEagerLoop_fail_head (fails : EntryPoint → Bool) (n : String)
    (f : EntryPoint) (l₂ : List (String × EntryPoint)) (s : LuaState)
    (hf : fails f = true) :
    openEagerLoop fails ((n, f) :: l₂) s = Except.error s := by
  simp [openEagerLoop, lua_call, lua_pushstring, lua_pushcfunction, hf]

theorem openEagerLoop_ok_stack (fails : EntryPoint → Bool)
    (l : List (String × EntryPoint)) (s s1 : LuaState)
    (h : openEagerLoop fails l s = Except.ok s1) : s1.stack = s.stack := by
  induction l generalizing s with
  | nil => simp [openEagerLoop] at h; rw [← h]
  | cons p rest ih =>
    obtain ⟨n, f⟩ := p
    by_cases hf : fails f = true
    · rw [openEagerLoop_fail_head fails n f rest s hf] at h
      exact absurd h (by simp)
    · simp only [Bool.not_eq_true] at hf
      simp [openEagerLoop, lua_call, lua_pushstring, lua_pushcfunction,
        hf, installedGlobals] at h
      exact ih { s with invoked := s.invoked ++ [⟨f, [LuaValue.str n], 0⟩],
                        globals := s.globals ++ [n] } h

theorem preloadLoop_run (l : List (String × EntryPoint)) (s : LuaState)
    (t : List LuaValue) (hs : s.stack = LuaValue.preloadRef :: t) :
    preloadLoop l s =
      { s with preload := l.foldl (fun acc p => setTableEntry acc p.1 p.2) s.preload } := by
  induction l generalizing s with
  | nil => simp [preloadLoop]
  | cons p rest ih =>
    obtain ⟨n, f⟩ := p
    show preloadLoop rest (lua_setfield_m2 n (lua_pushcfunction f s)) = _
    rw [show lua_setfield_m2 n (lua_pushcfunction f s) =
        { s with stack := LuaValue.preloadRef :: t,
                 preload := setTableEntry s.preload n f } from by
      simp [lua_setfield_m2, lua_pushcfunction, hs]]
    rw [ih _ rfl]
    simp [hs]

theorem luaL_openlibs_noFail (cfg : BuildConfig) (s : LuaState)
    (hp : s.preloadExists = false) :
    luaL_openlibs cfg noFail s =
      Except.ok { s with
        preloadExists := true
        preloadSizeHint := some ((lj_lib_preload cfg).length - 1)
        preload := lazyModuleSet cfg
        invoked := s.invoked ++ (eagerModuleSet cfg).map mkEagerEvent
        globals := s.globals ++ eagerNames cfg } := by
  unfold luaL_openlibs
  rw [show activeRegs (lj_lib_load cfg) = eagerModuleSet cfg from rfl,
    show activeRegs (lj_lib_preload cfg) = lazyModuleSet cfg from rfl,
    openEagerLoop_noFail]
  cases hF : cfg.LJ_HASFFI with
  | false =>
    simp [lazyModuleSet_eq, hF, luaL_findtable_preload, hp, preloadLoop,
      lua_pop, lj_lib_preload, eagerNames]
  | true =>
    simp [lazyModuleSet_eq, hF, luaL_findtable_preload, hp, preloadLoop,
      lua_pop, lj_lib_preload, lua_pushcfunction, lua_setfield_m2,
      setTableEntry, eagerNames]

theorem mem_eagerNames (cfg : BuildConfig) (x : String) :
    x ∈ eagerNames cfg ↔
      (cfg.WB_DISABLE_LIB_BASE = false ∧ x = "") ∨
      (cfg.WB_DISABLE_LIB_PACKAGE = false ∧ x = LUA_LOADLIBNAME) ∨
      (cfg.WB_DISABLE_LIB_TABLE = false ∧ x = LUA_TABLIBNAME) ∨
      ( cfg.WB_DISABLE_LIB_IO = false ∧ x = LUA_IOLIBNAME) ∨
      (cfg.WB_DISABLE_LIB_OS = false ∧ x = LUA_OSLIBNAME) ∨
      (cfg.WB_DISABLE_LIB_STRING = false ∧ x = LUA_STRLIBNAME) ∨
      (cfg.WB_DISABLE_LIB_MATH = false ∧ x = LUA_MATHLIBNAME) ∨
      (cfg.WB_DISABLE_LIB_DEBUG = false ∧ x = LUA_DBLIBNAME) ∨
      (cfg.WB_DISABLE_LIB_BIT = false ∧ x = LUA_BITLIBNAME) ∨
      (cfg.WB_DISABLE_LIB_JIT = false ∧ x = LUA_JITLIBNAME) := by
  rw [eagerNames, eagerModuleSet_eq]
  simp only [List.map_append, map_fst_cond, List.mem_append, mem_cond]

theorem mem_lazyNames (cfg : BuildConfig) (x : String) :
    x ∈ lazyNames cfg ↔ cfg.LJ_HASFFI = true ∧ x = LUA_FFILIBNAME := by
  rw [lazyNames, lazyModuleSet_eq]
  cases cfg.LJ_HASFFI <;> simp [eq_comm]

/-- C1: for every build configuration, a run of the installer in which
no entry point fails has an invocation trace exactly equal to the
EagerModuleSet in its declared order, where each descriptor's entry point is
called synchronously with exactly one input value — the descriptor's name
string (the empty string for the unnamed base descriptor, whose registry row
is `("", luaopen_base)`) — and zero consumed return values, any result
discarded; since the trace of the whole run contains nothing else, no
lazy-module processing contributes any invocation. -/
theorem c1_eager_invocation_order (cfg : BuildConfig) :
    Except.map (fun s1 => s1.invoked) (luaL_openlibs cfg noFail freshState) =
      Except.ok ((eagerModuleSet cfg).map mkEagerEvent) := by
  rw [luaL_openlibs_noFail cfg freshState rfl]
  simp [freshState, Except.map]

/-- C2: for every build configuration, after a successful installer run
every `(name, entry_point)` pair of the LazyModuleSet is stored in the
PreloadTable under key `name`, that entry point was never invoked during the
run, and the name is not a materialized global — it is pending only. -/
theorem c2_lazy_pending_not_invoked (cfg : BuildConfig) (s1 : LuaState)
    (hrun : luaL_openlibs cfg noFail freshState = Except.ok s1)
    (name : String) (f : EntryPoint) (hmem : (name, f) ∈ lazyModuleSet cfg) :
    (name, f) ∈ s1.preload ∧ (∀ ev ∈ s1.invoked, ev.func ≠ f) ∧
      name ∉ s1.globals := by
  rw [luaL_openlibs_noFail cfg freshState rfl] at hrun
  have hs1 : s1 = { freshState with
      preloadExists := true
      preloadSizeHint := some ((lj_lib_preload cfg).length - 1)
      preload := lazyModuleSet cfg
      invoked := freshState.invoked ++ (eagerModuleSet cfg).map mkEagerEvent
      globals := freshState.globals ++ eagerNames cfg } :=
    (Except.ok.inj hrun).symm
  subst hs1
  have hffi : name = LUA_FFILIBNAME ∧ f = EntryPoint.luaopen_ffi := by
    rw [lazyModuleSet_eq] at hmem
    cases cfg.LJ_HASFFI <;> simp_all
  obtain ⟨rfl, rfl⟩ := hffi
  refine ⟨hmem, ?_, ?_⟩
  · intro ev hev
    simp only [freshState, List.nil_append, List.mem_map] at hev
    obtain ⟨p, hp, rfl⟩ := hev
    have hfull := (eagerModuleSet_sublist cfg).subset hp
    simp [fullEagerOrder] at hfull
    rcases hfull with rfl | rfl | rfl | rfl | rfl | rfl | rfl | rfl | rfl | rfl <;>
      simp [mkEagerEvent]
  · intro hg
    simp only [freshState, List.nil_append] at hg
    rw [mem_eagerNames] at hg
    simp [LUA_FFILIBNAME, LUA_LOADLIBNAME, LUA_TABLIBNAME, LUA_IOLIBNAME,
      LUA_OSLIBNAME, LUA_STRLIBNAME, LUA_MATHLIBNAME, LUA_DBLIBNAME,
      LUA_BITLIBNAME, LUA_JITLIBNAME] at hg

/-- Witness for C2 at the concrete configuration `onlyFfi`. -/
theorem c2_lazy_pending_not_invoked_witness :
    (LUA_FFILIBNAME, EntryPoint.luaopen_ffi) ∈ afterOnlyFfi.preload ∧
      (∀ ev ∈ afterOnlyFfi.invoked, ev.func ≠ EntryPoint.luaopen_ffi) ∧
      LUA_FFILIBNAME ∉ afterOnlyFfi.globals :=
  c2_lazy_pending_not_invoked onlyFfi afterOnlyFfi rfl LUA_FFILIBNAME
    EntryPoint.luaopen_ffi (by decide)

/-- C3: a module whose build switch is set (or, for `ffi`, whose
platform capability flag is absent) has its name in neither the eager nor
the lazy name set: the descriptor is compiled out entirely. -/
theorem c3_switch_removes_module (cfg : BuildConfig) (m : LibId)
    (h : disabledIn m cfg = true) :
    libName m ∉ eagerNames cfg ∧ libName m ∉ lazyNames cfg := by
  cases m <;>
    simp_all [disabledIn, libName, mem_eagerNames, mem_lazyNames,
      LUA_LOADLIBNAME, LUA_TABLIBNAME, LUA_IOLIBNAME, LUA_OSLIBNAME,
      LUA_STRLIBNAME, LUA_MATHLIBNAME, LUA_DBLIBNAME, LUA_BITLIBNAME,
      LUA_JITLIBNAME, LUA_FFILIBNAME]

/-- Witness for C3: disabling `WB_DISABLE_LIB_TABLE` removes `table`. -/
theorem c3_switch_removes_module_witness :
    libName LibId.tableLib ∉ eagerNames
        ⟨false, false, true, false, false, false, false, false, false, false, true⟩ ∧
      libName LibId.tableLib ∉ lazyNames
        ⟨false, false, true, false, false, false, false, false, false, false, true⟩ :=
  c3_switch_removes_module
    ⟨false, false, true, false, false, false, false, false, false, false, true⟩
    LibId.tableLib (by decide)

/-- C4: if the eager pass reaches a descriptor whose entry point fails
(all earlier ones succeeding), `luaL_openlibs` returns that error
immediately: the resulting state keeps every module installed before the
failure (their invocations and globals remain, with no rollback), and no
preload-registration effect has happened (the `_PRELOAD` fields and the
stack are exactly those of the entry state). -/
theorem c4_failure_propagates_no_rollback (cfg : BuildConfig)
    (fails : EntryPoint → Bool) (s : LuaState) (n : String) (f : EntryPoint)
    (l₁ l₂ : List (String × EntryPoint))
    (hsplit : eagerModuleSet cfg = l₁ ++ (n, f) :: l₂)
    (hok : ∀ p ∈ l₁, fails p.2 = false) (hf : fails f = true) :
    luaL_openlibs cfg fails s =
      Except.error { s with
        invoked := s.invoked ++ l₁.map mkEagerEvent
        globals := s.globals ++ l₁.map Prod.fst } := by
  unfold luaL_openlibs
  rw [show activeRegs (lj_lib_load cfg) = eagerModuleSet cfg from rfl, hsplit,
    openEagerLoop_ok_prefix fails l₁ ((n, f) :: l₂) s hok,
    openEagerLoop_fail_head fails n f l₂ _ hf]

/-- Witness for C4: with every module enabled and `luaopen_table`
failing, the run aborts having installed exactly base and package. -/
theorem c4_failure_propagates_no_rollback_witness :
    luaL_openlibs allEnabled failTable freshState =
      Except.error { freshState with
        invoked := freshState.invoked ++
          ([("", EntryPoint.luaopen_base),
            (LUA_LOADLIBNAME, EntryPoint.luaopen_package)]).map mkEagerEvent
        globals := freshState.globals ++
          ([("", EntryPoint.luaopen_base),
            (LUA_LOADLIBNAME, EntryPoint.luaopen_package)]).map Prod.fst } :=
  c4_failure_propagates_no_rollback allEnabled failTable freshState
    LUA_TABLIBNAME EntryPoint.luaopen_table
    [("", .luaopen_base), (LUA_LOADLIBNAME, .luaopen_package)]
    [(LUA_IOLIBNAME, .luaopen_io), (LUA_OSLIBNAME, .luaopen_os),
     (LUA_STRLIBNAME, .luaopen_string), (LUA_MATHLIBNAME, .luaopen_math),
     (LUA_DBLIBNAME, .luaopen_debug), (LUA_BITLIBNAME, .luaopen_bit),
     (LUA_JITLIBNAME, .luaopen_jit)]
    (by decide) (by decide) (by decide)

/-- C5: whenever the base/unnamed module is compiled in
(`WB_DISABLE_LIB_BASE` not set), its descriptor is the first element of the
EagerModuleSet, so the base module is installed before every other eager
module. -/
theorem c5_base_installed_first (cfg : BuildConfig)
    (h : cfg.WB_DISABLE_LIB_BASE = false) :
    (eagerModuleSet cfg).head? = some ("", EntryPoint.luaopen_base) := by
  rw [eagerModuleSet_eq, h]
  simp

/-- Witness for C5 at the all-enabled configuration. -/
theorem c5_base_installed_first_witness :
    (eagerModuleSet allEnabled).head? = some ("", EntryPoint.luaopen_base) :=
  c5_base_installed_first allEnabled rfl

/-- C6: for every build configuration the eager and lazy name sets are
disjoint — a name of the EagerModuleSet never occurs in the LazyModuleSet. -/
theorem c6_name_sets_disjoint (cfg : BuildConfig) (x : String)
    (hx : x ∈ eagerNames cfg) : x ∉ lazyNames cfg := by
  intro hy
  rw [mem_lazyNames] at hy
  obtain ⟨-, rfl⟩ := hy
  rw [mem_eagerNames] at hx
  simp [LUA_FFILIBNAME, LUA_LOADLIBNAME, LUA_TABLIBNAME, LUA_IOLIBNAME,
    LUA_OSLIBNAME, LUA_STRLIBNAME, LUA_MATHLIBNAME, LUA_DBLIBNAME,
    LUA_BITLIBNAME, LUA_JITLIBNAME] at hx

/-- Witness for C6: `package` is an eager name and not a lazy name. -/
theorem c6_name_sets_disjoint_witness :
    LUA_LOADLIBNAME ∉ lazyNames allEnabled :=
  c6_name_sets_disjoint allEnabled LUA_LOADLIBNAME (by decide)

/-- C7: on a no-failure run from a fresh state, the size hint recorded
when the PreloadTable is created — the C expression
`sizeof(lj_lib_preload)/sizeof(lj_lib_preload[0]) - 1` — equals exactly the
number of LazyModuleSet entries (the sentinel excluded), for every build
configuration. -/
theorem c7_preload_size_hint (cfg : BuildConfig) :
    Except.map (fun s1 => s1.preloadSizeHint)
        (luaL_openlibs cfg noFail freshState) =
      Except.ok (some (lazyModuleSet cfg).length) := by
  rw [luaL_openlibs_noFail cfg freshState rfl]
  cases hF : cfg.LJ_HASFFI <;>
    simp [lj_lib_preload, lazyModuleSet_eq, hF, Except.map]

/-- C8: the EagerModuleSet and LazyModuleSet are a pure, deterministic
function of the compile-time configuration alone: the registry arrays take
no interpreter state and mutate nothing, and two constructions under
configurations agreeing on every switch yield identical sets. -/
theorem c8_registry_pure_deterministic (cfg₁ cfg₂ : BuildConfig)
    (h : cfg₁.WB_DISABLE_LIB_BASE = cfg₂.WB_DISABLE_LIB_BASE ∧
         cfg₁.WB_DISABLE_LIB_PACKAGE = cfg₂.WB_DISABLE_LIB_PACKAGE ∧
         cfg₁.WB_DISABLE_LIB_TABLE = cfg₂.WB_DISABLE_LIB_TABLE ∧
         cfg₁.WB_DISABLE_LIB_IO = cfg₂.WB_DISABLE_LIB_IO ∧
         cfg₁.WB_DISABLE_LIB_OS = cfg₂.WB_DISABLE_LIB_OS ∧
         cfg₁.WB_DISABLE_LIB_STRING = cfg₂.WB_DISABLE_LIB_STRING ∧
         cfg₁.WB_DISABLE_LIB_MATH = cfg₂.WB_DISABLE_LIB_MATH ∧
         cfg₁.WB_DISABLE_LIB_DEBUG = cfg₂.WB_DISABLE_LIB_DEBUG ∧
         cfg₁.WB_DISABLE_LIB_BIT = cfg₂.WB_DISABLE_LIB_BIT ∧
         cfg₁.WB_DISABLE_LIB_JIT = cfg₂.WB_DISABLE_LIB_JIT ∧
         cfg₁.LJ_HASFFI = cfg₂.LJ_HASFFI) :
    eagerModuleSet cfg₁ = eagerModuleSet cfg₂ ∧
      lazyModuleSet cfg₁ = lazyModuleSet cfg₂ := by
  have hc : cfg₁ = cfg₂ := by
    obtain ⟨h1, h2, h3, h4, h5, h6, h7, h8, h9, h10, h11⟩ := h
    cases cfg₁
    cases cfg₂
    simp_all
  rw [hc]
  exact ⟨rfl, rfl⟩

/-- Witness for C8: two syntactically different configuration records
with equal fields yield the same sets. -/
theorem c8_registry_pure_deterministic_witness :
    eagerModuleSet allEnabled =
        eagerModuleSet ⟨false, false, false, false, false, false, false,
          false, false, false, true⟩ ∧
      lazyModuleSet allEnabled =
        lazyModuleSet ⟨false, false, false, false, false, false, false,
          false, false, false, true⟩ :=
  c8_registry_pure_deterministic allEnabled
    ⟨false, false, false, false, false, false, false, false, false, false,
      true⟩ (by decide)

/-- C9: a successful installer run leaves the evaluation stack exactly
as it was on entry: each eager call pushes two values and consumes both, and
the PreloadTable reference pushed for lazy registration is popped before
return. -/
theorem c9_stack_height_preserved (cfg : BuildConfig)
    (fails : EntryPoint → Bool) (s s1 : LuaState)
    (h : luaL_openlibs cfg fails s = Except.ok s1) :
    s1.stack = s.stack := by
  unfold luaL_openlibs at h
  cases heager : openEagerLoop fails (activeRegs (lj_lib_load cfg)) s with
  | error e =>
    rw [heager] at h
    simp at h
  | ok s2 =>
    rw [heager] at h
    replace h : Except.ok (lua_pop 1 (preloadLoop (activeRegs (lj_lib_preload cfg))
        (luaL_findtable_preload ((lj_lib_preload cfg).length - 1) s2))) =
        Except.ok s1 := h
    have h2 : s2.stack = s.stack :=
      openEagerLoop_ok_stack fails (activeRegs (lj_lib_load cfg)) s s2 heager
    have h3 : (luaL_findtable_preload ((lj_lib_preload cfg).length - 1) s2).stack =
        LuaValue.preloadRef :: s2.stack := by
      rw [luaL_findtable_preload]
      split <;> rfl
    rw [preloadLoop_run (activeRegs (lj_lib_preload cfg))
      (luaL_findtable_preload ((lj_lib_preload cfg).length - 1) s2) s2.stack h3] at h
    rw [← Except.ok.inj h]
    simp [lua_pop, h3, h2]

/-- Witness for C9 at the concrete configuration `onlyFfi`. -/
theorem c9_stack_height_preserved_witness :
    afterOnlyFfi.stack = freshState.stack :=
  c9_stack_height_preserved onlyFfi noFail freshState afterOnlyFfi rfl

/-- C10: for every build configuration the EagerModuleSet is a
subsequence of the fixed full order (base, package, table, io, os, string,
math, debug, bit, jit): disabling switches removes rows but never reorders
the remaining ones — in particular `package`, when present, precedes every
later library. -/
theorem c10_eager_subsequence_of_full_order (cfg : BuildConfig) :
    List.Sublist (eagerModuleSet cfg) fullEagerOrder :=
  eagerModuleSet_sublist cfg

/-- Witness for C1 at the all-enabled configuration. -/
theorem c1_eager_invocation_order_witness :
    Except.map (fun s1 => s1.invoked) (luaL_openlibs allEnabled noFail freshState) =
      Except.ok ((eagerModuleSet allEnabled).map mkEagerEvent) :=
  c1_eager_invocation_order allEnabled

/-- Witness for C7 at the concrete configuration `onlyFfi`. -/
theorem c7_preload_size_hint_witness :
    Except.map (fun s1 => s1.preloadSizeHint)
        (luaL_openlibs onlyFfi noFail freshState) =
      Except.ok (some (lazyModuleSet onlyFfi).length) :=
  c7_preload_size_hint onlyFfi

/-- Witness for C10 at the all-enabled configuration. -/
theorem c10_eager_subsequence_of_full_order_witness :
    List.Sublist (eagerModuleSet allEnabled) fullEagerOrder :=
  c10_eager_subsequence_of_full_order allEnabled
